import Mathlib

/-!
Shallow embedding of the sleepy character-device module (src/sleepy.c).

The module exposes, per device (channel), two operations: `sleepy_read`
(the Signal operation: increment the generation counter `dev->flag` and wake
all waiters) and `sleepy_write` (the AwaitChange operation: decode a 4-byte
duration, snapshot the counter under the mutex, and sleep via
`wait_event_interruptible_timeout` until the counter changes, the timeout
expires, or a signal interrupts).  Module init constructs `sleepy_ndevices`
devices in order and rolls back on partial failure via
`sleepy_cleanup_module`.

Scheduling nondeterminism (whether `mutex_lock_killable` is interrupted,
the value of `dev->flag` at the wait condition check, and how the sleep
ends) is resolved by explicit oracle arguments, so every definition is an
executable function of the device state and those oracles.
-/

namespace Sleepy

/-- `EINVAL` from <linux/errno.h> (invalid argument). -/
def EINVAL : Int := 22

/-- `EINTR` from <linux/errno.h> (interrupted system call). -/
def EINTR : Int := 4

/-- `ENOMEM` from <linux/errno.h> (out of memory). -/
def ENOMEM : Int := 12

/-- `ENODEV` from <linux/errno.h> (no such device). -/
def ENODEV : Int := 19

/-- `ERESTARTSYS`, the value `wait_event_interruptible_timeout` yields when the
sleep is interrupted by signal delivery. -/
def ERESTARTSYS : Int := 512

/-- Modelled from the spec: `struct sleepy_dev` is declared in `sleepy.h`, which is
absent from the sources; the state the two file operations use is the generation
counter field `flag` ("generation: unsigned integer counter, monotonically
incremented on every signal"), held here as a natural number kept below `2^64`
(`unsigned long` on x86_64, the width inferred from the snapshot
`unsigned long flag = dev->flag;` at sleepy.c:137).  The mutex, wait queue, cdev
and data pointer fields carry no state that the claims mention; the wait queue
behaviour enters through `WaitOutcome`. -/
structure SleepyDev where
  flag : Nat
deriving DecidableEq

/-- Conversion of a signed value to `unsigned long` (64-bit, x86_64), as in the
initialization `unsigned long sleep_jiffies = sleep_seconds * HZ;` at
sleepy.c:130 when `sleep_seconds` is negative. -/
def toULong (x : Int) : Nat := (x % (2 ^ 64 : Int)).toNat

/-- Reading an `unsigned long` bit pattern as a signed `long` (64-bit, x86_64), as
happens when `sleep_jiffies` is passed for the `long` timeout parameter of
`wait_event_interruptible_timeout` at sleepy.c:143. -/
def toLong (n : Nat) : Int :=
  if n % 2 ^ 64 < 2 ^ 63 then ((n % 2 ^ 64 : Nat) : Int)
  else ((n % 2 ^ 64 : Nat) : Int) - 2 ^ 64

/-- Two's-complement wrapping of a 32-bit `int` arithmetic result, used for the
product `sleep_seconds * HZ` at sleepy.c:130 (both operands are `int`). -/
def wrap32 (x : Int) : Int := (x + 2 ^ 31) % 2 ^ 32 - 2 ^ 31

/-- How one sleep inside `wait_event_interruptible_timeout` ends, resolving the
scheduling nondeterminism: woken with `remaining` jiffies of budget left because
the wake condition turned true, woken by expiry of the timeout with the condition
still false, or interrupted by signal delivery to the sleeping process. -/
inductive WaitOutcome where
  | signaled (remaining : Int)
  | timedOut
  | interrupted
deriving DecidableEq

/-- Constraint the kernel guarantees on a sleep outcome for a given timeout: when
the condition turns true the macro reports the remaining jiffies, at least `1`
(also the value reported when the condition turns true exactly at expiry) and at
most the timeout it was given. -/
def validOutcome (timeout : Int) (o : WaitOutcome) : Prop :=
  match o with
  | .signaled r => 1 ≤ r ∧ r ≤ timeout
  | .timedOut => True
  | .interrupted => True

instance (timeout : Int) (o : WaitOutcome) : Decidable (validOutcome timeout o) :=
  match o with
  | .signaled r => inferInstanceAs (Decidable (1 ≤ r ∧ r ≤ timeout))
  | .timedOut => inferInstanceAs (Decidable True)
  | .interrupted => inferInstanceAs (Decidable True)

/-- `wait_event_interruptible_timeout(wq, cond, timeout)` as called at
sleepy.c:143: if the condition already holds at the first check the macro
returns without sleeping — its `___wait_cond_timeout` bumps a zero return budget
to `1` when the condition is true, so the value is the `timeout` argument when
that is nonzero and `1` when it is zero; otherwise the sleep outcome determines
the value: the remaining jiffies on a condition wake, `0` on expiry with the
condition false, `-ERESTARTSYS` on signal interruption. -/
def wait_event_interruptible_timeout (condInit : Bool) (timeout : Int)
    (o : WaitOutcome) : Int :=
  if condInit then (if timeout = 0 then 1 else timeout)
  else
    match o with
    | .signaled r => r
    | .timedOut => 0
    | .interrupted => -ERESTARTSYS

/-- `sleepy_read` (sleepy.c:88-112), the Signal operation: acquire the device
mutex with `mutex_lock_killable` — which fails and makes the call return `-EINTR`
when a fatal signal arrives while waiting, modelled by the oracle `killed` —
then increment `dev->flag` (an `unsigned long`, hence the reduction modulo
`2^64`), wake the queue, unlock, and return `0`. -/
def sleepy_read (dev : SleepyDev) (killed : Bool) : SleepyDev × Int :=
  if killed then (dev, -EINTR)
  else ({ flag := (dev.flag + 1) % 2 ^ 64 }, 0)

/-- `sleepy_write` (sleepy.c:114-155), the AwaitChange operation.  The oracle
arguments resolve the environment: `count` is the byte count of the write,
`sleep_seconds` the `int` that `copy_from_user` decodes from the 4-byte buffer
(`copyOk` is that copy's success), `killed` whether `mutex_lock_killable` was
interrupted, `flagAtCheck` the value of `dev->flag` at the wait macro's first
condition check (a concurrent `sleepy_read` may have changed it after the
snapshot was taken), `o` how the sleep ends, and `hz` the kernel's `HZ` tick
rate.  Returns the device state as left by this call together with the
`ssize_t` result: `-EINVAL` for a byte count other than 4 or a failed copy,
`-EINTR` for a killed mutex acquisition, and otherwise the wait result divided
by `HZ` (C `long` division, truncating toward zero) when it is nonzero. -/
def sleepy_write (dev : SleepyDev) (count : Nat) (sleep_seconds : Int)
    (copyOk : Bool) (killed : Bool) (flagAtCheck : Nat) (o : WaitOutcome)
    (hz : Int) : SleepyDev × Int :=
  if count ≠ 4 then (dev, -EINVAL)
  else if copyOk = false then (dev, -EINVAL)
  else
    let sleep_jiffies : Nat := toULong (wrap32 (sleep_seconds * hz))
    if killed then (dev, -EINTR)
    else
      let flag : Nat := dev.flag
      let w : Int :=
        wait_event_interruptible_timeout (decide (flag ≠ flagAtCheck))
          (toLong sleep_jiffies) o
      (dev, if w ≠ 0 then Int.tdiv w hz else w)

/-- Dispatch of a Signal on minor number `i`: `sleepy_open` stores
`&sleepy_devices[mn]` in `filp->private_data` (sleepy.c:70) after checking the
minor number against the device count (sleepy.c:61, returning `-ENODEV` for an
invalid minor), so a read acts on entry `i` of the device array and on no other
entry. -/
def signalMinor (devs : List SleepyDev) (i : Nat) (killed : Bool) :
    List SleepyDev × Int :=
  match devs.get? i with
  | none => (devs, -ENODEV)
  | some dev =>
      let r := sleepy_read dev killed
      (devs.set i r.1, r.2)

/-- `n` consecutive completed Signal calls (`sleepy_read` with the mutex acquired
normally) on one device. -/
def signalSeq (dev : SleepyDev) : Nat → SleepyDev
  | 0 => dev
  | n + 1 => (sleepy_read (signalSeq dev n) false).1

/-- Environment resolving the fallible kernel services `sleepy_init_module`
calls: the result of `alloc_chrdev_region` (`0` for success, negative for
failure), of `class_create` (`0` for success, the nonzero `PTR_ERR` code
otherwise), whether the `kzalloc` of the device array succeeds, and the result
of `sleepy_construct_device` for each index (`0` for success). -/
structure InitEnv where
  regionErr : Int
  classErr : Int
  allocOk : Bool
  constructErr : Nat → Int

/-- Observable resource state of the module: whether the chrdev region is
registered, whether the device class exists, whether the device array is
allocated, which device indices are currently constructed (cdev added and
device created, not yet destroyed), and which indices have been destroyed, in
order of destruction. -/
structure ModuleState where
  regionRegistered : Bool
  classExists : Bool
  devicesArray : Bool
  constructedLive : List Nat
  destroyedList : List Nat
deriving DecidableEq

/-- The state before `sleepy_init_module` runs: nothing registered, nothing
allocated, nothing constructed. -/
def initialModuleState : ModuleState := ⟨false, false, false, [], []⟩

/-- `sleepy_cleanup_module` (sleepy.c:233-253) with `devices_to_destroy = d`:
when the device array exists, destroy devices `0..d-1` in order via
`sleepy_destroy_device` and free the array; then destroy the class when it
exists; finally unregister the chrdev region. -/
def sleepy_cleanup_module (st : ModuleState) (d : Nat) : ModuleState :=
  let st1 :=
    if st.devicesArray then
      { st with
        destroyedList := st.destroyedList ++ List.range d
        constructedLive := st.constructedLive.filter (fun j => decide (d ≤ j))
        devicesArray := false }
    else st
  let st2 := if st1.classExists then { st1 with classExists := false } else st1
  { st2 with regionRegistered := false }

/-- First index at which `sleepy_construct_device` fails in the loop at
sleepy.c:296-302, scanning `fuel` indices starting at `i`; `none` when all
succeed. -/
def firstFail (env : InitEnv) : Nat → Nat → Option Nat
  | 0, _ => none
  | fuel + 1, i =>
      if env.constructErr i ≠ 0 then some i else firstFail env fuel (i + 1)

/-- `sleepy_init_module` (sleepy.c:255-312): reject a nonpositive
`sleepy_ndevices` with `-EINVAL`; allocate the chrdev region (a failure is
returned as is, with nothing to clean up); create the class and allocate the
device array, each failure jumping to cleanup with `devices_to_destroy = 0`;
construct devices `0..ndevices-1` in order, and on the first failure set
`devices_to_destroy` to the failing index and jump to cleanup before returning
that error; on full success return `0` with all devices constructed. -/
def sleepy_init_module (env : InitEnv) (ndevices : Int) : ModuleState × Int :=
  if ndevices ≤ 0 then (initialModuleState, -EINVAL)
  else if env.regionErr < 0 then (initialModuleState, env.regionErr)
  else
    let st1 := { initialModuleState with regionRegistered := true }
    if env.classErr ≠ 0 then (sleepy_cleanup_module st1 0, env.classErr)
    else
      let st2 := { st1 with classExists := true }
      if env.allocOk = false then (sleepy_cleanup_module st2 0, -ENOMEM)
      else
        let st3 := { st2 with devicesArray := true }
        match firstFail env ndevices.toNat 0 with
        | some k =>
            (sleepy_cleanup_module { st3 with constructedLive := List.range k } k,
             env.constructErr k)
        | none => ({ st3 with constructedLive := List.range ndevices.toNat }, 0)

end Sleepy

namespace Sleepy

/-- Helper: unfolding one step of `signalSeq`. -/
theorem signalSeq_succ (dev : SleepyDev) (n : Nat) :
    (signalSeq dev (n + 1)).flag = ((signalSeq dev n).flag + 1) % 2 ^ 64 := rfl

/-- C1 counterexample: one Signal call on a channel whose generation counter holds
`2^64 - 1` (the `unsigned long` maximum, reachable from the initial `0` by that
many Signal calls) leaves the counter at `0`, not at the pre-call value plus one:
the counter is modular, not an unbounded sum. -/
theorem generation_counter_wraps :
    (signalSeq ⟨2 ^ 64 - 1⟩ 1).flag = 0 ∧
    (signalSeq ⟨2 ^ 64 - 1⟩ 1).flag ≠ 2 ^ 64 - 1 + 1 := by
  constructor
  · show (2 ^ 64 - 1 + 1) % 2 ^ 64 = 0
    omega
  · show (2 ^ 64 - 1 + 1) % 2 ^ 64 ≠ 2 ^ 64 - 1 + 1
    omega

/-- C1 amended: for a counter value below `2^64` (the invariant of the
`unsigned long` field), after any sequence of `n` completed Signal calls the
generation counter holds the pre-call value plus `n` reduced modulo `2^64`; each
Signal increments it by exactly one modulo `2^64`, so the counter equals the plain
sum precisely as long as that sum stays below `2^64`. -/
theorem generation_counter_adds_signals (dev : SleepyDev) (n : Nat)
    (hinv : dev.flag < 2 ^ 64) :
    (signalSeq dev n).flag = (dev.flag + n) % 2 ^ 64 ∧
    (dev.flag + n < 2 ^ 64 → (signalSeq dev n).flag = dev.flag + n) := by
  have key : ∀ m : Nat, (signalSeq dev m).flag = (dev.flag + m) % 2 ^ 64 := by
    intro m
    induction m with
    | zero =>
        show dev.flag = (dev.flag + 0) % 2 ^ 64
        omega
    | succ k ih =>
        rw [signalSeq_succ, ih]
        omega
  exact ⟨key n, fun h => by rw [key n, Nat.mod_eq_of_lt h]⟩

/-- C1 amended, witness: three Signal calls starting from counter value 5 leave
the counter at 8. -/
theorem generation_counter_adds_signals_witness :
    (signalSeq ⟨5⟩ 3).flag = (5 + 3) % 2 ^ 64 ∧
    (5 + 3 < 2 ^ 64 → (signalSeq ⟨5⟩ 3).flag = 5 + 3) :=
  generation_counter_adds_signals ⟨5⟩ 3 (by norm_num)

/-- C4 counterexample: when a fatal signal interrupts `mutex_lock_killable`, the
Signal operation returns the error `-EINTR` rather than succeeding: it does have
an error path toward its caller. -/
theorem signal_can_return_error :
    (sleepy_read ⟨0⟩ true).2 = -EINTR ∧ (sleepy_read ⟨0⟩ true).2 ≠ 0 := by
  exact ⟨rfl, by decide⟩

/-- C4 amended: a Signal call on a valid open channel succeeds with result `0`
(incrementing the counter modulo `2^64`) whenever the mutex acquisition completes
normally; when `mutex_lock_killable` is interrupted by a fatal signal, the call
instead returns `-EINTR` and leaves the device state unchanged. -/
theorem signal_result (dev : SleepyDev) :
    sleepy_read dev false = (⟨(dev.flag + 1) % 2 ^ 64⟩, 0) ∧
    sleepy_read dev true = (dev, -EINTR) :=
  ⟨rfl, rfl⟩

/-- C9: a write whose byte count is not exactly 4 returns `-EINVAL` with the
device state untouched, uniformly in the device state and in every scheduling
oracle: the rejection happens before the device state is read and before the
wait logic is reached. -/
theorem bad_count_rejected (dev : SleepyDev) (count : Nat) (s : Int)
    (copyOk killed : Bool) (flagAtCheck : Nat) (o : WaitOutcome) (hz : Int)
    (h : count ≠ 4) :
    sleepy_write dev count s copyOk killed flagAtCheck o hz = (dev, -EINVAL) := by
  unfold sleepy_write
  rw [if_pos h]

/-- C9 witness: a 3-byte write is rejected with `-EINVAL` whatever the sleep
outcome would have been. -/
theorem bad_count_rejected_witness :
    sleepy_write ⟨7⟩ 3 10 true false 9 (.signaled 100) 250 = (⟨7⟩, -EINVAL) :=
  bad_count_rejected ⟨7⟩ 3 10 true false 9 (.signaled 100) 250 (by decide)

/-- C10: `sleepy_write` leaves the generation counter unchanged on every path —
rejected byte count, failed copy, killed mutex acquisition, and each sleep
outcome; the device state it leaves behind is exactly the input state, so only
`sleepy_read` ever modifies the counter. -/
theorem write_preserves_flag (dev : SleepyDev) (count : Nat) (s : Int)
    (copyOk killed : Bool) (flagAtCheck : Nat) (o : WaitOutcome) (hz : Int) :
    (sleepy_write dev count s copyOk killed flagAtCheck o hz).1 = dev := by
  unfold sleepy_write
  split
  · rfl
  · split
    · rfl
    · split <;> rfl

end Sleepy

namespace Sleepy

/-- Helper: the int-to-unsigned-long-to-long conversion chain at sleepy.c:130 and
sleepy.c:143 is the identity on values in the 32-bit range. -/
theorem toLong_toULong_wrap32_eq (x : Int) (h1 : -(2 ^ 31) ≤ x) (h2 : x < 2 ^ 31) :
    toLong (toULong (wrap32 x)) = x := by
  have hw : wrap32 x = x := by unfold wrap32; omega
  rw [hw]
  unfold toLong toULong
  split
  · omega
  · omega

/-- C2 counterexample: with `HZ = 250`, a 10-second wait woken by a signal with
100 jiffies (0.4 s) of budget remaining returns `0` — exactly the value returned
when the full duration elapses with no signal — although 100 jiffies is a legal
remaining budget for that sleep; the signaled and timed-out outcomes are not
mutually distinguishable. -/
theorem await_outcomes_collide :
    validOutcome (toLong (toULong (wrap32 (10 * 250)))) (.signaled 100) ∧
    (sleepy_write ⟨0⟩ 4 10 true false 0 (.signaled 100) 250).2 = 0 ∧
    (sleepy_write ⟨0⟩ 4 10 true false 0 .timedOut 250).2 = 0 := by
  refine ⟨by decide, by decide, by decide⟩

/-- C2 amended: with a well-formed 4-byte duration and no racing signal before the
first check, the result of AwaitChange is: `-EINTR` when the mutex acquisition is
interrupted; the remaining jiffies divided by `HZ` truncating toward zero when the
sleep is woken by a signal (`0`, identical to the timed-out result, whenever fewer
than `HZ` jiffies remain); `0` when the full duration elapses; and `-ERESTARTSYS`
divided by `HZ` truncating toward zero when the sleep is interrupted — so the
three completion outcomes are not always mutually distinguishable. -/
theorem await_result_by_outcome (dev : SleepyDev) (s : Int) (o : WaitOutcome)
    (hz : Int) :
    (sleepy_write dev 4 s true true dev.flag o hz).2 = -EINTR ∧
    (∀ r, 1 ≤ r →
      (sleepy_write dev 4 s true false dev.flag (.signaled r) hz).2 =
        Int.tdiv r hz) ∧
    (sleepy_write dev 4 s true false dev.flag .timedOut hz).2 = 0 ∧
    (sleepy_write dev 4 s true false dev.flag .interrupted hz).2 =
      Int.tdiv (-ERESTARTSYS) hz := by
  refine ⟨by simp [sleepy_write], ?_, ?_, ?_⟩
  · intro r hr
    have hrne : r ≠ 0 := by omega
    simp [sleepy_write, wait_event_interruptible_timeout, hrne]
  · simp [sleepy_write, wait_event_interruptible_timeout]
  · simp [sleepy_write, wait_event_interruptible_timeout, ERESTARTSYS]

/-- C2 amended, witness: woken with 600 of 2500 jiffies remaining at `HZ = 250`,
the call returns `600 tdiv 250 = 2` seconds. -/
theorem await_result_by_outcome_witness :
    (sleepy_write ⟨3⟩ 4 10 true false 3 (.signaled 600) 250).2 = Int.tdiv 600 250 :=
  (await_result_by_outcome ⟨3⟩ 10 .timedOut 250).2.1 600 (by decide)

end Sleepy

namespace Sleepy

/-- C3 counterexample: a well-formed 4-byte write carrying the duration `-1` is
not rejected: with the mutex acquired normally, no racing signal, and the sleep
expiring, `sleepy_write` returns `0` (the timed-out result), not `-EINVAL` — the
negative-duration check is absent and the wait logic is reached. -/
theorem negative_duration_not_rejected :
    (sleepy_write ⟨0⟩ 4 (-1) true false 0 .timedOut 250).2 = 0 ∧
    (sleepy_write ⟨0⟩ 4 (-1) true false 0 .timedOut 250).2 ≠ -EINVAL := by
  refine ⟨by decide, by decide⟩

/-- C3 amended: a negative duration in a well-formed 4-byte write is not rejected
with `-EINVAL`: the negative product `sleep_seconds * HZ` is stored into the
`unsigned long` `sleep_jiffies` and read back as the same negative `long` timeout
by the wait logic, which the call always reaches; when the sleep then reports
expiry the call returns `0`. -/
theorem negative_duration_reaches_wait (dev : SleepyDev) (s hz : Int)
    (hs : s < 0) (hhz : 0 < hz) (hfit : -(2 ^ 31) ≤ s * hz) :
    toLong (toULong (wrap32 (s * hz))) = s * hz ∧ s * hz < 0 ∧
    (sleepy_write dev 4 s true false dev.flag .timedOut hz).2 = 0 := by
  have hneg : s * hz < 0 := mul_neg_of_neg_of_pos hs hhz
  refine ⟨toLong_toULong_wrap32_eq _ hfit (by omega), hneg, ?_⟩
  simp [sleepy_write, wait_event_interruptible_timeout]

/-- C3 amended, witness: the duration `-1` at `HZ = 250` survives the conversion
chain as the negative timeout `-250`, and the call returns `0`, not `-EINVAL`. -/
theorem negative_duration_reaches_wait_witness :
    toLong (toULong (wrap32 ((-1) * 250))) = (-1) * 250 ∧ ((-1 : Int) * 250) < 0 ∧
    (sleepy_write ⟨0⟩ 4 (-1) true false (SleepyDev.mk 0).flag .timedOut 250).2 = 0 :=
  negative_duration_reaches_wait ⟨0⟩ (-1) 250 (by decide) (by decide) (by decide)

/-- Helper: the unsigned-long-to-long conversion chain is the identity on the
`long` range. -/
theorem toLong_toULong_eq (x : Int) (h1 : -(2 ^ 63) ≤ x) (h2 : x < 2 ^ 63) :
    toLong (toULong x) = x := by
  unfold toLong toULong
  split
  · omega
  · omega

/-- C5 counterexample: the duration 8589935 at `HZ = 250` is a well-formed
4-byte input whose 32-bit product `sleep_seconds * HZ` overflows
(8589935 * 250 = 2^31 + 102), wrapping to the negative jiffies count
-2147483546; a call on a channel whose counter already differs at the first
check therefore returns -8589934, not the full duration 8589935. -/
theorem raced_overflow_not_full_duration :
    (sleepy_write ⟨0⟩ 4 8589935 true false 1 .timedOut 250).2 = -8589934 ∧
    (sleepy_write ⟨0⟩ 4 8589935 true false 1 .timedOut 250).2 ≠ 8589935 := by
  refine ⟨by decide, by decide⟩

/-- C5 amended: when the generation counter at the wait macro's first check
already differs from the value snapshotted under the mutex (a signal raced in
between), the macro returns its full budget immediately, whatever sleep outcome
the scheduler would have produced, and the call returns the full `maxDuration`
whenever the 32-bit product `sleep_seconds * HZ` is positive and does not
overflow; a zero duration returns `0` (the kernel bumps the zero budget to `1`
jiffy, and `1 tdiv HZ = 0` for `HZ ≥ 2`); when the product overflows to a
negative wrapped value the call instead returns that wrapped value divided by
`HZ`, not the full duration. -/
theorem raced_signal_result (dev : SleepyDev) (s : Int) (flagAtCheck : Nat)
    (o : WaitOutcome) (hz : Int) (hhz : 1 < hz) (hne : flagAtCheck ≠ dev.flag) :
    (0 < s * hz → s * hz < 2 ^ 31 →
      (sleepy_write dev 4 s true false flagAtCheck o hz).2 = s) ∧
    (s = 0 → (sleepy_write dev 4 s true false flagAtCheck o hz).2 = 0) ∧
    (wrap32 (s * hz) < 0 →
      (sleepy_write dev 4 s true false flagAtCheck o hz).2 =
        Int.tdiv (wrap32 (s * hz)) hz) := by
  have hcond : dev.flag ≠ flagAtCheck := Ne.symm hne
  refine ⟨?_, ?_, ?_⟩
  · intro h1 h2
    have hkey : toLong (toULong (wrap32 (s * hz))) = s * hz :=
      toLong_toULong_wrap32_eq _ (by omega) h2
    have hne0 : s * hz ≠ 0 := by omega
    simp [sleepy_write, wait_event_interruptible_timeout, hcond, hkey, hne0,
      Int.mul_tdiv_cancel s (by omega : hz ≠ 0)]
  · intro h0
    subst h0
    have h0w : toLong (toULong (wrap32 0)) = 0 := by decide
    have h1t : Int.tdiv 1 hz = 0 := Int.tdiv_eq_zero_of_lt (by omega) (by omega)
    simp [sleepy_write, wait_event_interruptible_timeout, hcond, h0w, h1t]
  · intro hneg
    have hb : -(2 ^ 31) ≤ wrap32 (s * hz) := by
      unfold wrap32
      omega
    have hkey : toLong (toULong (wrap32 (s * hz))) = wrap32 (s * hz) :=
      toLong_toULong_eq _ (by omega) (by omega)
    have hne0 : wrap32 (s * hz) ≠ 0 := by omega
    simp [sleepy_write, wait_event_interruptible_timeout, hcond, hkey, hne0]

/-- C5 amended, witness: with a racing signal before the first check, a
10-second wait at `HZ = 250` returns the full 10, while the overflowing duration
8589935 returns the wrapped product divided by `HZ` instead. -/
theorem raced_signal_result_witness :
    (sleepy_write ⟨0⟩ 4 10 true false 1 .timedOut 250).2 = 10 ∧
    (sleepy_write ⟨0⟩ 4 8589935 true false 1 .timedOut 250).2 =
      Int.tdiv (wrap32 (8589935 * 250)) 250 :=
  ⟨(raced_signal_result ⟨0⟩ 10 1 .timedOut 250 (by decide) (by decide)).1
      (by decide) (by decide),
   (raced_signal_result ⟨0⟩ 8589935 1 .timedOut 250 (by decide) (by decide)).2.2
      (by decide)⟩

/-- C6: a zero duration with an unchanged counter returns `0`, the timed-out
result, for every sleep outcome the kernel can legally produce at timeout `0`
other than signal interruption: a condition wake would need a remaining budget of
at least 1 and at most 0 jiffies, which is impossible, so the call cannot linger
in the wait and expiry is its only completion. -/
theorem zero_duration_times_out (dev : SleepyDev) (o : WaitOutcome) (hz : Int)
    (hv : validOutcome 0 o) (hni : o ≠ WaitOutcome.interrupted) :
    (sleepy_write dev 4 0 true false dev.flag o hz).2 = 0 := by
  cases o with
  | signaled r =>
      rcases hv with ⟨h1, h2⟩
      omega
  | timedOut => simp [sleepy_write, wait_event_interruptible_timeout]
  | interrupted => exact absurd rfl hni

/-- C6 witness: a zero-duration wait on an unchanged channel at `HZ = 100`
returns `0`. -/
theorem zero_duration_times_out_witness :
    (sleepy_write ⟨8⟩ 4 0 true false (SleepyDev.mk 8).flag .timedOut 100).2 = 0 :=
  zero_duration_times_out ⟨8⟩ .timedOut 100 (by decide) (by decide)

end Sleepy

namespace Sleepy

/-- Helper: the construction loop reports the first failing index: if every index
before `k` constructs successfully and `k` fails, the scan starting at `i ≤ k`
with enough fuel stops exactly at `k`. -/
theorem firstFail_eq_some (env : InitEnv) (k : Nat) :
    ∀ fuel i, i ≤ k → k < i + fuel →
      (∀ j, i ≤ j → j < k → env.constructErr j = 0) → env.constructErr k ≠ 0 →
      firstFail env fuel i = some k := by
  intro fuel
  induction fuel with
  | zero => intro i h1 h2 _ _; omega
  | succ m ih =>
      intro i h1 h2 hok hfail
      unfold firstFail
      rcases Nat.eq_or_lt_of_le h1 with heq | hlt
      · subst heq
        rw [if_pos hfail]
      · rw [if_neg (by simpa using hok i (Nat.le_refl i) hlt)]
        exact ih (i + 1) hlt (by omega) (fun j hj1 hj2 => hok j (by omega) hj2) hfail

/-- Helper: no element of `range k` survives the filter keeping indices `≥ k`. -/
theorem filter_range_ge (k : Nat) :
    (List.range k).filter (fun j => decide (k ≤ j)) = [] := by
  apply List.filter_eq_nil_iff.mpr
  intro a ha
  rw [List.mem_range] at ha
  simp only [decide_eq_true_eq]
  omega

/-- C7: when the region, class and array allocations succeed, channels `0..k-1`
construct successfully and channel `k`'s construction fails, module init returns
channel `k`'s error after tearing down exactly channels `0..k-1` (in order),
freeing the device array, destroying the class and unregistering the region: the
registry is left fully unconstructed and no partially-usable registry survives. -/
theorem construct_failure_rollback (env : InitEnv) (n k : Nat) (hk : k < n)
    (hreg : env.regionErr = 0) (hcls : env.classErr = 0)
    (halloc : env.allocOk = true)
    (hok : ∀ j, j < k → env.constructErr j = 0) (hfail : env.constructErr k ≠ 0) :
    sleepy_init_module env (n : Int) =
      (⟨false, false, false, [], List.range k⟩, env.constructErr k) := by
  unfold sleepy_init_module
  rw [if_neg (by omega : ¬(n : Int) ≤ 0), hreg]
  rw [if_neg (by omega : ¬(0 : Int) < 0), hcls]
  rw [if_neg (by simp : ¬(0 : Int) ≠ 0), halloc]
  rw [if_neg (by simp : ¬true = false)]
  rw [Int.toNat_natCast]
  rw [firstFail_eq_some env k n 0 (Nat.zero_le k) (by omega)
    (fun j _ hj => hok j hj) hfail]
  unfold sleepy_cleanup_module initialModuleState
  simp [filter_range_ge]

/-- C7 witness: with three channels requested and channel 1 failing
deterministically with `-ENOMEM`, init reports `-ENOMEM` and the final state has
channel 0 destroyed, nothing live, the array freed, the class destroyed and the
region unregistered. -/
theorem construct_failure_rollback_witness :
    sleepy_init_module ⟨0, 0, true, fun i => if i = 1 then -ENOMEM else 0⟩ (3 : Int) =
      (⟨false, false, false, [], [0]⟩, -ENOMEM) := by
  have h := construct_failure_rollback ⟨0, 0, true, fun i => if i = 1 then -ENOMEM else 0⟩
    3 1 (by decide) rfl rfl rfl
    (by intro j hj; have : j = 0 := by omega
        subst this; rfl)
    (by simp [ENOMEM])
  simpa using h

/-- C8: a Signal on minor number `i` acts only on device `i`: every other entry
of the device array keeps exactly its prior value, and when the mutex
acquisition completes, entry `i`'s counter is incremented by one modulo
`2^64`. -/
theorem signal_frame (devs : List SleepyDev) (i : Nat) (killed : Bool) (j : Nat)
    (hne : j ≠ i) :
    (signalMinor devs i killed).1.get? j = devs.get? j ∧
    (∀ dev, devs.get? i = some dev → killed = false →
      (signalMinor devs i killed).1.get? i = some ⟨(dev.flag + 1) % 2 ^ 64⟩) := by
  constructor
  · unfold signalMinor
    cases h : devs.get? i with
    | none => rfl
    | some dev =>
        exact List.get?_set_ne _ _ (Ne.symm hne)
  · intro dev hdev hk
    subst hk
    have hlen : i < devs.length := by
      rcases List.get?_eq_some.mp hdev with ⟨hl, _⟩
      exact hl
    unfold signalMinor
    rw [hdev]
    show (devs.set i ⟨(dev.flag + 1) % 2 ^ 64⟩).get? i = some ⟨(dev.flag + 1) % 2 ^ 64⟩
    exact List.get?_set_eq_of_lt _ hlen

/-- C8 witness: in a three-channel registry with counters 5, 7, 9, a Signal on
minor 1 leaves channel 0 at 5 and sets channel 1 to 8. -/
theorem signal_frame_witness :
    (signalMinor [⟨5⟩, ⟨7⟩, ⟨9⟩] 1 false).1.get? 0 = some ⟨5⟩ ∧
    (signalMinor [⟨5⟩, ⟨7⟩, ⟨9⟩] 1 false).1.get? 1 = some ⟨8⟩ := by
  have h := signal_frame [⟨5⟩, ⟨7⟩, ⟨9⟩] 1 false 0 (by decide)
  exact ⟨h.1, h.2 ⟨7⟩ rfl rfl⟩

end Sleepy
